import Mathlib

/-!
Shallow embedding of `src/react/canvas_ux.tsx` from the planner repository.

The file under verification is a React component layer over the
fluid-framework collaboration library.  We embed:

* the data shapes the component reads (conference tree, audience, container
  connection state) — the schema files (`app_schema`, `session_schema`,
  `utils`) are not part of the given sources, so those shapes are modelled
  from the specification;
* the event handlers (`updateConnectionState`, the dirty/saved handlers,
  `updateMembers`, the tree-change handler) as pure functions from the
  observable world to the list of setter invocations (effects) they perform;
* the subscription sets acquired by the three `useEffect` mount bodies and
  the subscription sets released by their cleanup functions;
* the rendering functions `ConferenceView` and `DaysView` as functions
  producing a tree of React elements.
-/

/-- Modelled from the spec: the connection-state enum imported from
fluid-framework (external, not repository code); §3 of the spec records its
four observed variants (connected, disconnected, establishing, catching up). -/
inductive ConnectionState where
  | Connected
  | Disconnected
  | EstablishingConnection
  | CatchingUp
deriving DecidableEq, Repr

/-- A JavaScript value as far as the file inspects one: the code checks
`typeof user === "string"`, so we distinguish string values from any other
defined value. -/
inductive JsVal where
  | str (s : String)
  | other
deriving DecidableEq, Repr

/-- Modelled from the spec: an audience member (`IMember` of fluid-framework).
Its `userId` may be absent (`undefined`/`null`, both collapsed to `none`
because the code compares with loose `==`), a string, or some other value. -/
structure Member where
  userId : Option JsVal
deriving DecidableEq, Repr

/-- A JavaScript `Map`, as returned by `audience.getMembers()`: an ordered
association list whose keys are pairwise distinct (a language guarantee of
`Map`). -/
structure JsMap (α β : Type) where
  entries : List (α × β)
  nodupKeys : (entries.map Prod.fst).Nodup

/-- `Array.from(m.keys())`: the keys of the map in insertion order. -/
def JsMap.keys {α β : Type} (m : JsMap α β) : List α :=
  m.entries.map Prod.fst

/-- Modelled from the spec: the audience handle (`IServiceAudience`),
exposing `getMyself()` (possibly not yet populated) and `getMembers()`
(defensively treated as possibly undefined by the code). -/
structure Audience where
  myself : Option Member
  members : Option (JsMap String Member)

/-- Modelled from the spec: `undefinedUserId` from `src/utils/utils.js`
(not under the given sources) — the sentinel "undefined" user value.  The
claims depend only on equality with this sentinel, not on its spelling. -/
def undefinedUserId : String := "undefined"

/-- A single setter invocation performed by one of Canvas's handlers.
`setInvalidations` stands for the internal invalidation-counter update
(`setInvalidations(invalidations + Math.random())`). -/
inductive Effect where
  | setConnectionState (s : String)
  | setSaved (b : Bool)
  | setCurrentUser (u : String)
  | setFluidMembers (ms : List String)
  | setInvalidations
deriving DecidableEq, Repr

/-- `updateConnectionState` from the container `useEffect` of `Canvas`
(canvas_ux.tsx lines 61-71): an if/else-if chain on
`props.container.connectionState` that invokes `props.setConnectionState`
with a label.  We return the list of setter invocations it performs. -/
def updateConnectionState (cs : ConnectionState) : List Effect :=
  if cs = ConnectionState.Connected then
    [Effect.setConnectionState "connected"]
  else if cs = ConnectionState.Disconnected then
    [Effect.setConnectionState "disconnected"]
  else if cs = ConnectionState.EstablishingConnection then
    [Effect.setConnectionState "connecting"]
  else if cs = ConnectionState.CatchingUp then
    [Effect.setConnectionState "catching up"]
  else
    []

/-- `updateMembers` from `Canvas` (canvas_ux.tsx lines 81-93), as the list of
setter invocations it performs given the observable world: the audience, the
container's connection state and the `currentUser` prop.  The four leading
guards mirror the four early returns of the source. -/
def updateMembers (audience : Audience) (connState : ConnectionState)
    (currentUser : String) : List Effect :=
  match audience.myself with
  | none => []
  | some me =>
    match me.userId with
    | none => []
    | some uid =>
      match audience.members with
      | none => []
      | some mems =>
        if connState ≠ ConnectionState.Connected then []
        else
          (if currentUser = undefinedUserId then
            match uid with
            | JsVal.str u => [Effect.setCurrentUser u]
            | JsVal.other => []
          else []) ++ [Effect.setFluidMembers mems.keys]

/-- The five named container lifecycle notifications that appear in
`container.on(...)` calls (canvas_ux.tsx lines 74-78). -/
inductive ContainerEvent where
  | connected
  | disconnected
  | dirty
  | saved
  | disposed
deriving DecidableEq, Repr

/-- A notification source Canvas can subscribe to: the tree-change
notification (`Tree.on(root, "treeChanged", ...)`), a named container
lifecycle notification (`container.on(name, ...)`), or the audience
membership notification (`audience.on("membersChanged", ...)`). -/
inductive Notif where
  | treeChanged
  | containerEvt (e : ContainerEvent)
  | membersChanged
deriving DecidableEq, Repr

/-- Subscriptions acquired by the first `useEffect` body of `Canvas`
(canvas_ux.tsx lines 53-58): the tree-change registration. -/
def treeEffectAcquired : List Notif := [Notif.treeChanged]

/-- Subscriptions released by the first effect's cleanup: the effect returns
the `unsubscribe` function of the tree-change registration. -/
def treeEffectReleased : List Notif := [Notif.treeChanged]

/-- Subscriptions acquired by the second `useEffect` body of `Canvas`
(canvas_ux.tsx lines 60-79): the five `container.on` registrations, in
source order. -/
def containerEffectAcquired : List Notif :=
  [Notif.containerEvt ContainerEvent.connected,
   Notif.containerEvt ContainerEvent.disconnected,
   Notif.containerEvt ContainerEvent.dirty,
   Notif.containerEvt ContainerEvent.saved,
   Notif.containerEvt ContainerEvent.disposed]

/-- Subscriptions released by the second effect's cleanup: the effect body
returns no cleanup function, so nothing is released. -/
def containerEffectReleased : List Notif := []

/-- Subscriptions acquired by the third `useEffect` body of `Canvas`
(canvas_ux.tsx lines 95-100): the `membersChanged` registration. -/
def audienceEffectAcquired : List Notif := [Notif.membersChanged]

/-- Subscriptions released by the third effect's cleanup: it calls
`audience.off("membersChanged", updateMembers)`. -/
def audienceEffectReleased : List Notif := [Notif.membersChanged]

/-- All subscriptions Canvas acquires on mount. -/
def mountAcquired : List Notif :=
  treeEffectAcquired ++ containerEffectAcquired ++ audienceEffectAcquired

/-- All subscriptions Canvas releases on unmount (the concatenation of the
three effects' cleanups). -/
def unmountReleased : List Notif :=
  treeEffectReleased ++ containerEffectReleased ++ audienceEffectReleased

/-- Modelled from the spec: the per-user ephemeral client-session tree
(`ClientSession` from `src/schema/session_schema.js`, not under the given
sources); spec §3 describes it only as externally-owned per-user state, and
canvas_ux.tsx never reads inside it, so a single identifying field
suffices. -/
structure ClientSession where
  clientId : String
deriving DecidableEq, Repr

/-- Modelled from the spec: a session node of the conference tree
(`src/schema/app_schema.js`, not under the given sources).  canvas_ux.tsx
reads only its framework identity `id`; `title` stands for the remaining
payload. -/
structure Session where
  id : String
  title : String
deriving DecidableEq, Repr

/-- Modelled from the spec: the conference tree root
(`src/schema/app_schema.js`, not under the given sources): a list of
(unscheduled) sessions and a list of days, each day itself a list of
sessions (the code passes a day directly as the `sessions` prop). -/
structure Conference where
  sessions : List Session
  days : List (List Session)
deriving DecidableEq, Repr

/-- Everything the Canvas handlers can observe: the two trees, the
container's connection state, the audience handle and the `currentUser`
prop. -/
structure World where
  conference : Conference
  clientSession : ClientSession
  connState : ConnectionState
  audience : Audience
  currentUser : String

/-- Dispatch of one notification to the handler Canvas registered for it
(canvas_ux.tsx lines 53-58, 74-78 and 96): the handler returns the world —
the handlers contain no assignment to either tree — together with the list
of setter invocations performed.  `treeChanged` runs the invalidation arrow,
`connected`/`disconnected`/`disposed` run `updateConnectionState`, `dirty`
and `saved` run the `setSaved` arrows, and `membersChanged` runs
`updateMembers`. -/
def handle (w : World) (n : Notif) : World × List Effect :=
  match n with
  | Notif.treeChanged => (w, [Effect.setInvalidations])
  | Notif.containerEvt ContainerEvent.connected => (w, updateConnectionState w.connState)
  | Notif.containerEvt ContainerEvent.disconnected => (w, updateConnectionState w.connState)
  | Notif.containerEvt ContainerEvent.dirty => (w, [Effect.setSaved false])
  | Notif.containerEvt ContainerEvent.saved => (w, [Effect.setSaved true])
  | Notif.containerEvt ContainerEvent.disposed => (w, updateConnectionState w.connState)
  | Notif.membersChanged => (w, updateMembers w.audience w.connState w.currentUser)

/-- C1: the connection-state mapping is total over the four variants and
invokes `setConnectionState` exactly once with the exact labels
"connected", "disconnected", "connecting", "catching up" respectively. -/
theorem updateConnectionState_total_exact_labels :
    updateConnectionState ConnectionState.Connected
        = [Effect.setConnectionState "connected"] ∧
    updateConnectionState ConnectionState.Disconnected
        = [Effect.setConnectionState "disconnected"] ∧
    updateConnectionState ConnectionState.EstablishingConnection
        = [Effect.setConnectionState "connecting"] ∧
    updateConnectionState ConnectionState.CatchingUp
        = [Effect.setConnectionState "catching up"] :=
  ⟨rfl, rfl, rfl, rfl⟩

/-- Is an effect a `setCurrentUser` invocation? -/
def isSetCurrentUser : Effect → Bool
  | Effect.setCurrentUser _ => true
  | _ => false

/-- Number of `setCurrentUser` invocations in an effect list. -/
def countSetCurrentUser (es : List Effect) : Nat :=
  (es.filter isSetCurrentUser).length

/-- A fixed world used to instantiate universally quantified theorems:
connected container, audience not yet populated. -/
def W0 : World :=
  { conference := { sessions := [], days := [] }
    clientSession := { clientId := "c0" }
    connState := ConnectionState.Connected
    audience := { myself := none, members := none }
    currentUser := "alice" }

/-- Characterization of `updateMembers`: its result is either empty, or all
four guards passed and the result is the `setFluidMembers` call alone, or
additionally the current user was the sentinel with a string id and the
result is the `setCurrentUser` call followed by the `setFluidMembers`
call. -/
theorem updateMembers_cases (a : Audience) (cs : ConnectionState)
    (cur : String) :
    updateMembers a cs cur = [] ∨
    ∃ me uid mems, a.myself = some me ∧ me.userId = some uid ∧
      a.members = some mems ∧ cs = ConnectionState.Connected ∧
      (updateMembers a cs cur = [Effect.setFluidMembers mems.keys] ∨
       ∃ u, uid = JsVal.str u ∧ cur = undefinedUserId ∧
         updateMembers a cs cur
           = [Effect.setCurrentUser u, Effect.setFluidMembers mems.keys]) := by
  rcases h1 : a.myself with _ | me
  · left; simp [updateMembers, h1]
  rcases h2 : me.userId with _ | uid
  · left; simp [updateMembers, h1, h2]
  rcases h3 : a.members with _ | mems
  · left; simp [updateMembers, h1, h2, h3]
  by_cases hc : cs = ConnectionState.Connected
  · right
    refine ⟨me, uid, mems, rfl, h2, rfl, hc, ?_⟩
    by_cases hcur : cur = undefinedUserId
    · cases uid with
      | str u0 =>
        exact Or.inr ⟨u0, rfl, hcur,
          by simp [updateMembers, h1, h2, h3, hc, hcur]⟩
      | other =>
        exact Or.inl (by simp [updateMembers, h1, h2, h3, hc, hcur])
    · exact Or.inl (by simp [updateMembers, h1, h2, h3, hc, hcur])
  · left; simp [updateMembers, h1, h2, h3, hc]

/-- C3: per `membersChanged` notification, `updateMembers` invokes
`setCurrentUser` at most once, and only when the `currentUser` prop equals
the `undefinedUserId` sentinel and the audience's own member has a userId
that is a string. -/
theorem updateMembers_setCurrentUser_once_guarded (a : Audience)
    (cs : ConnectionState) (cur : String) :
    countSetCurrentUser (updateMembers a cs cur) ≤ 1 ∧
    ∀ u : String, Effect.setCurrentUser u ∈ updateMembers a cs cur →
      cur = undefinedUserId ∧
      ∃ me, a.myself = some me ∧ me.userId = some (JsVal.str u) := by
  rcases updateMembers_cases a cs cur with
    h | ⟨me, uid, mems, h1, h2, h3, hc, h | ⟨u0, huid, hcur, h⟩⟩
  · rw [h]; simp [countSetCurrentUser]
  · rw [h]; simp [countSetCurrentUser, isSetCurrentUser]
  · rw [h]
    refine ⟨by simp [countSetCurrentUser, isSetCurrentUser], ?_⟩
    intro u hu
    simp at hu
    subst hu
    exact ⟨hcur, me, h1, by rw [h2, huid]⟩

/-- An audience whose own member has resolved to the string id "alice" and
whose member map holds the single key "alice". -/
def A1 : Audience :=
  { myself := some { userId := some (JsVal.str "alice") }
    members := some { entries := [("alice", { userId := some (JsVal.str "alice") })]
                      nodupKeys := by simp } }

/-- Witness for C3 at a concrete input where `setCurrentUser` does fire. -/
theorem updateMembers_setCurrentUser_once_guarded_witness :
    undefinedUserId = undefinedUserId ∧
    ∃ me, A1.myself = some me ∧ me.userId = some (JsVal.str "alice") :=
  (updateMembers_setCurrentUser_once_guarded A1 ConnectionState.Connected
      undefinedUserId).2 "alice" (by decide)

/-- C8: every member-id list that `updateMembers` passes to
`setFluidMembers` is duplicate-free, because it is `Array.from` of the keys
of the audience's member map. -/
theorem updateMembers_fluidMembers_nodup (a : Audience) (cs : ConnectionState)
    (cur : String) (ms : List String)
    (h : Effect.setFluidMembers ms ∈ updateMembers a cs cur) :
    ms.Nodup := by
  rcases updateMembers_cases a cs cur with
    hE | ⟨me, uid, mems, h1, h2, h3, hc, hE | ⟨u0, huid, hcur, hE⟩⟩
  · rw [hE] at h; simp at h
  · rw [hE] at h; simp at h; subst h; exact mems.nodupKeys
  · rw [hE] at h; simp at h; subst h; exact mems.nodupKeys

/-- Witness for C8 at a concrete input where `setFluidMembers` does fire. -/
theorem updateMembers_fluidMembers_nodup_witness :
    List.Nodup ["alice"] :=
  updateMembers_fluidMembers_nodup A1 ConnectionState.Connected
    undefinedUserId ["alice"] (by decide)

/-- C10: if the audience's own member is undefined, or its userId is
undefined, or the member map is undefined, or the container is not
Connected, `updateMembers` returns early with no setter invocation. -/
theorem updateMembers_guards_return_early (a : Audience)
    (cs : ConnectionState) (cur : String)
    (h : a.myself = none ∨
         (∃ me, a.myself = some me ∧ me.userId = none) ∨
         a.members = none ∨
         cs ≠ ConnectionState.Connected) :
    updateMembers a cs cur = [] := by
  rcases updateMembers_cases a cs cur with
    hE | ⟨me, uid, mems, h1, h2, h3, hc, _⟩
  · exact hE
  · exfalso
    rcases h with h | ⟨me', hme', hu⟩ | h | h
    · rw [h] at h1; exact Option.noConfusion h1
    · rw [h1] at hme'
      rw [← Option.some.inj hme'] at hu
      rw [hu] at h2
      exact Option.noConfusion h2
    · rw [h] at h3; exact Option.noConfusion h3
    · exact h hc

/-- Witness for C10: with an unpopulated audience, no setter is invoked. -/
theorem updateMembers_guards_return_early_witness :
    updateMembers { myself := none, members := none }
      ConnectionState.Connected "alice" = [] :=
  updateMembers_guards_return_early _ _ _ (Or.inl rfl)

/-- The set of setter invocations the spec allows Canvas's handlers to
perform: `setConnectionState` with one of the four labels, `setSaved`,
`setCurrentUser`, `setFluidMembers`, or the invalidation-counter update. -/
def allowedEffect : Effect → Prop
  | Effect.setConnectionState s =>
      s = "connected" ∨ s = "disconnected" ∨ s = "connecting" ∨ s = "catching up"
  | Effect.setSaved _ => True
  | Effect.setCurrentUser _ => True
  | Effect.setFluidMembers _ => True
  | Effect.setInvalidations => True

/-- Helper: every effect emitted by `updateConnectionState` is a
`setConnectionState` with one of the four labels. -/
theorem allowedEffect_of_mem_updateConnectionState (cs : ConnectionState)
    (e : Effect) (he : e ∈ updateConnectionState cs) : allowedEffect e := by
  cases cs <;> simp [updateConnectionState] at he <;>
    subst he <;> simp [allowedEffect]

/-- Helper: every effect emitted by `updateMembers` is allowed. -/
theorem allowedEffect_of_mem_updateMembers (a : Audience)
    (cs : ConnectionState) (cur : String) (e : Effect)
    (he : e ∈ updateMembers a cs cur) : allowedEffect e := by
  rcases updateMembers_cases a cs cur with
    hE | ⟨me, uid, mems, h1, h2, h3, hc, hE | ⟨u0, huid, hcur, hE⟩⟩
  · rw [hE] at he; simp at he
  · rw [hE] at he; simp at he; subst he; simp [allowedEffect]
  · rw [hE] at he; simp at he
    rcases he with he | he <;> subst he <;> simp [allowedEffect]

/-- C7: handling any notification leaves the world — in particular the
conference tree and the client-session tree — unchanged, and every side
effect performed is one of the allowed setter invocations. -/
theorem handle_frame_and_allowed_effects (w : World) (n : Notif) :
    (handle w n).1 = w ∧ ∀ e ∈ (handle w n).2, allowedEffect e := by
  refine ⟨by cases n with
    | treeChanged => rfl
    | containerEvt e => cases e <;> rfl
    | membersChanged => rfl, ?_⟩
  intro e he
  cases n with
  | treeChanged => simp [handle] at he; subst he; simp [allowedEffect]
  | containerEvt ev =>
    cases ev with
    | connected => exact allowedEffect_of_mem_updateConnectionState _ _ he
    | disconnected => exact allowedEffect_of_mem_updateConnectionState _ _ he
    | disposed => exact allowedEffect_of_mem_updateConnectionState _ _ he
    | dirty => simp [handle] at he; subst he; simp [allowedEffect]
    | saved => simp [handle] at he; subst he; simp [allowedEffect]
  | membersChanged => exact allowedEffect_of_mem_updateMembers _ _ _ _ he

/-- Witness for C7 at a concrete world and notification. -/
theorem handle_frame_and_allowed_effects_witness :
    allowedEffect (Effect.setConnectionState "connected") :=
  (handle_frame_and_allowed_effects W0
      (Notif.containerEvt ContainerEvent.connected)).2
    (Effect.setConnectionState "connected") (by decide)

/-- Counterexample to C2: the `connected` container subscription is acquired
on mount but is not among the subscriptions released on unmount (the second
`useEffect` returns no cleanup), and its still-registered handler invokes
`setConnectionState` when it later fires. -/
theorem container_connected_subscription_leaks :
    Notif.containerEvt ContainerEvent.connected ∈ mountAcquired ∧
    Notif.containerEvt ContainerEvent.connected ∉ unmountReleased ∧
    (handle W0 (Notif.containerEvt ContainerEvent.connected)).2
      = [Effect.setConnectionState "connected"] := by
  decide

/-- C2 as amended: unmount releases exactly the tree-change and
`membersChanged` subscriptions, while each of the five container lifecycle
subscriptions acquired on mount is never released. -/
theorem unmount_releases_tree_and_members_only :
    unmountReleased = [Notif.treeChanged, Notif.membersChanged] ∧
    (Notif.containerEvt ContainerEvent.connected ∈ mountAcquired ∧
      Notif.containerEvt ContainerEvent.connected ∉ unmountReleased) ∧
    (Notif.containerEvt ContainerEvent.disconnected ∈ mountAcquired ∧
      Notif.containerEvt ContainerEvent.disconnected ∉ unmountReleased) ∧
    (Notif.containerEvt ContainerEvent.dirty ∈ mountAcquired ∧
      Notif.containerEvt ContainerEvent.dirty ∉ unmountReleased) ∧
    (Notif.containerEvt ContainerEvent.saved ∈ mountAcquired ∧
      Notif.containerEvt ContainerEvent.saved ∉ unmountReleased) ∧
    (Notif.containerEvt ContainerEvent.disposed ∈ mountAcquired ∧
      Notif.containerEvt ContainerEvent.disposed ∉ unmountReleased) := by
  decide

/-- Is this subscription one of the container lifecycle subscriptions? -/
def isContainerSub : Notif → Bool
  | Notif.containerEvt _ => true
  | _ => false

/-- Counterexample to C4: the mount effect registers five (not four) named
container lifecycle notifications, and (for instance) the `dirty`
registration is never unsubscribed. -/
theorem container_registrations_not_four :
    containerEffectAcquired.length = 5 ∧
    ¬ containerEffectAcquired.length = 4 ∧
    Notif.containerEvt ContainerEvent.dirty ∈ containerEffectAcquired ∧
    Notif.containerEvt ContainerEvent.dirty ∉ unmountReleased := by
  decide

/-- C4 as amended: the mount effect subscribes to exactly the five named
container lifecycle notifications connected, disconnected, dirty, saved,
disposed — in that order — and unsubscribes from none of them. -/
theorem container_subscribes_five_unsubscribes_none :
    containerEffectAcquired
      = [Notif.containerEvt ContainerEvent.connected,
         Notif.containerEvt ContainerEvent.disconnected,
         Notif.containerEvt ContainerEvent.dirty,
         Notif.containerEvt ContainerEvent.saved,
         Notif.containerEvt ContainerEvent.disposed] ∧
    containerEffectAcquired.length = 5 ∧
    containerEffectReleased = [] ∧
    unmountReleased.filter isContainerSub = [] := by
  decide

/-- The props threaded unchanged through the view components: the current
client id, the client-session tree and the member list. -/
structure ViewProps where
  clientId : String
  clientSession : ClientSession
  fluidMembers : List String
deriving DecidableEq, Repr

/-- A React element as built by this file: plain `div`s with a class and
children, fragments, and the component elements instantiated by
`ConferenceView` and `DaysView` with the props that matter to them
(`key`, `title`, `sessions` / `session` / the conference, plus the threaded
`ViewProps`).  Component elements are unexpanded, as in a returned React
element tree. -/
inductive RElem where
  | div (className : String) (children : List RElem)
  | fragment (children : List RElem)
  | sessionsView (key : Option Nat) (title : String) (sessions : List Session)
      (vp : ViewProps)
  | daysView (conference : Conference) (vp : ViewProps)
  | rootSessionWrapper (key : String) (session : Session) (vp : ViewProps)

/-- The `sessionArray` that `ConferenceView` builds (canvas_ux.tsx lines
148-159): one `RootSessionWrapper` element per session of the conference,
keyed by the session's `id`. -/
def sessionArray (conference : Conference) (vp : ViewProps) : List RElem :=
  conference.sessions.map fun i => RElem.rootSessionWrapper i.id i vp

/-- `ConferenceView` (canvas_ux.tsx lines 142-172): builds `sessionArray`,
then returns a column `div` holding a `SessionsView` over the whole sessions
list titled "Unscheduled", a `DaysView`, and an empty spacer `div`.  The
binding of `sessionArray` is kept to mirror the source; the returned tree
does not use it. -/
def ConferenceView (conference : Conference) (vp : ViewProps) : RElem :=
  let _sessionArray := sessionArray conference vp
  RElem.div "flex flex-col h-full w-full content-start overflow-auto"
    [RElem.div "flex w-full p-4"
      [RElem.sessionsView none "Unscheduled" conference.sessions vp],
     RElem.div "flex flex-row h-full w-full flex-nowrap gap-4 p-4 content-start"
      [RElem.daysView conference vp],
     RElem.div "flex w-full h-24" []]

/-- The children `DaysView` pushes into `dayArray` (canvas_ux.tsx lines
181-193): one `SessionsView` per day, keyed by `Tree.key(day)` and titled
`"Day " + (Tree.key(day) + 1)`.  `Tree.key` is modelled from the spec
(fluid-framework, external): the framework-assigned key of a child of an
array node is its index in the parent, here made explicit by `enum`. -/
def daysViewChildren (conference : Conference) (vp : ViewProps) :
    List RElem :=
  conference.days.enum.map fun kd =>
    RElem.sessionsView (some kd.1) ("Day " ++ toString (kd.1 + 1)) kd.2 vp

/-- `DaysView` (canvas_ux.tsx lines 175-196): renders `dayArray` in a
fragment. -/
def DaysView (conference : Conference) (vp : ViewProps) : RElem :=
  RElem.fragment (daysViewChildren conference vp)

/-- Modelled from the spec: `SessionsView` is imported from
`./sessions_ux.js`, which is not among the given sources.  Spec §4.2:
"purely derived rendering — maps over the sequence of sessions ... and
instantiates one child view per element, keyed by the element's
framework-assigned identity."  The per-session child view is rendered as a
`rootSessionWrapper` element keyed by the session's `id`. -/
def sessionsViewChildren (sessions : List Session) (vp : ViewProps) :
    List RElem :=
  sessions.map fun s => RElem.rootSessionWrapper s.id s vp

/-- The React key of a per-session child element, when it has one. -/
def childKey : RElem → Option String
  | RElem.rootSessionWrapper k _ _ => some k
  | _ => none

/-- The `SessionsView` element rendered in the "Unscheduled" slot of a
`ConferenceView` output tree: the first child of its first child. -/
def unscheduledNode : RElem → Option RElem
  | RElem.div _ (RElem.div _ (x :: _) :: _) => some x
  | _ => none

mutual

/-- Does a `RootSessionWrapper` element occur anywhere in this element
tree? -/
def hasRSW : RElem → Bool
  | RElem.div _ cs => hasRSWList cs
  | RElem.fragment cs => hasRSWList cs
  | RElem.sessionsView _ _ _ _ => false
  | RElem.daysView _ _ => false
  | RElem.rootSessionWrapper _ _ _ => true

/-- Does a `RootSessionWrapper` element occur in any of these element
trees? -/
def hasRSWList : List RElem → Bool
  | [] => false
  | e :: es => hasRSW e || hasRSWList es

end

/-- C9: the `sessionArray` of `RootSessionWrapper` elements that
`ConferenceView` constructs (one per session) is never part of its rendered
output: the returned tree contains no `RootSessionWrapper` element at all
and is exactly the "Unscheduled" `SessionsView`, the `DaysView` and the
spacer, independent of `sessionArray`. -/
theorem conferenceView_output_excludes_sessionArray (conference : Conference)
    (vp : ViewProps) :
    hasRSW (ConferenceView conference vp) = false ∧
    (sessionArray conference vp).length = conference.sessions.length ∧
    (sessionArray conference vp).all hasRSW = true ∧
    ConferenceView conference vp
      = RElem.div "flex flex-col h-full w-full content-start overflow-auto"
          [RElem.div "flex w-full p-4"
            [RElem.sessionsView none "Unscheduled" conference.sessions vp],
           RElem.div "flex flex-row h-full w-full flex-nowrap gap-4 p-4 content-start"
            [RElem.daysView conference vp],
           RElem.div "flex w-full h-24" []] := by
  refine ⟨?_, by simp [sessionArray], ?_, rfl⟩
  · simp [ConferenceView, hasRSW, hasRSWList]
  · simp only [sessionArray, List.all_eq_true]
    intro s hs
    obtain ⟨i, _, rfl⟩ := List.mem_map.mp hs
    rfl

/-- C6: `DaysView` renders one `SessionsView` per element of the days list:
the child at position `k` exists exactly when day `k` exists, is keyed by
the day's framework key `k`, and carries the 1-based display title
`"Day " ++ toString (k + 1)`. -/
theorem daysView_one_child_per_day_keyed_titled (conference : Conference)
    (vp : ViewProps) (k : Nat) :
    (daysViewChildren conference vp).length = conference.days.length ∧
    (daysViewChildren conference vp)[k]? = (conference.days[k]?).map
      (fun day =>
        RElem.sessionsView (some k) ("Day " ++ toString (k + 1)) day vp) ∧
    DaysView conference vp = RElem.fragment (daysViewChildren conference vp) := by
  refine ⟨by simp [daysViewChildren], ?_, rfl⟩
  simp [daysViewChildren, List.getElem?_enum, Option.map_map]
  rfl

/-- C5: `ConferenceView` renders the whole sessions list through a single
"Unscheduled" `SessionsView`, whose per-session children number exactly the
length of the sessions list and are keyed, in order, by the sessions'
framework-assigned `id`s. -/
theorem conferenceView_sessions_children_count_and_keys
    (conference : Conference) (vp : ViewProps) :
    unscheduledNode (ConferenceView conference vp)
      = some (RElem.sessionsView none "Unscheduled" conference.sessions vp) ∧
    (sessionsViewChildren conference.sessions vp).length
      = conference.sessions.length ∧
    (sessionsViewChildren conference.sessions vp).map childKey
      = conference.sessions.map (fun s => some s.id) := by
  refine ⟨rfl, by simp [sessionsViewChildren], ?_⟩
  simp [sessionsViewChildren, childKey]
